import Mathlib

/-!
Shallow embedding of `dynamic_temperature_fan.py` (klipper_dynamic_fan).

Python floats are modelled as rationals (`ℚ`); none of the verified claims
depends on floating-point rounding.  Mutating methods become functions from
the controller state to a new state, paired with the observable effect
(the `(scheduled_time, speed)` command forwarded to `fan.set_speed`, when
any) and, for command handlers, a `Bool` that is `true` when the method
returned normally and `false` when it raised `command_error`.  Because a
Python exception leaves already-performed attribute assignments in place,
a raising method still returns the (possibly partially mutated) state.
-/

/-- `MAX_FAN_TIME = 5.0` (line 9). -/
def MAX_FAN_TIME : ℚ := 5

/-- `KELVIN_TO_CELSIUS = -273.15` (line 8). -/
def KELVIN_TO_CELSIUS : ℚ := -27315 / 100

/-- The mutable attributes of `DynamicTemperatureFan` set up in `__init__`
(lines 15-47) that the control logic reads and writes. -/
structure DynamicTemperatureFan where
  min_temp : ℚ
  max_temp : ℚ
  target_temp : ℚ
  target_temp_conf : ℚ
  min_speed : ℚ
  max_speed : ℚ
  ramp_down : Bool
  enable : Bool
  last_temp : ℚ
  last_temp_time : ℚ
  next_speed_time : ℚ
  last_speed_value : ℚ
  speed_delay : ℚ
deriving DecidableEq

/-- Constructor validation (lines 19-47): `config.getfloat("min_temp",
minval=KELVIN_TO_CELSIUS)`, `max_temp` strictly `above` `min_temp`,
`max_speed` strictly above `0` with `maxval=1.0`, `min_speed` with
`minval=0.0, maxval=1.0`, and `target_temp` with `minval=self.min_temp,
maxval=self.max_temp` (both bounds inclusive).  Initial mutable state:
`enable = False`, `last_temp = 0.0`, `last_temp_time = 0.0`,
`next_speed_time = 0.0`, `last_speed_value = 0.0`.  Returns `none` when a
config check fails (config errors abort initialization). -/
def initState (min_temp max_temp max_speed min_speed : ℚ) (ramp_down : Bool)
    (target_temp speed_delay : ℚ) : Option DynamicTemperatureFan :=
  if KELVIN_TO_CELSIUS ≤ min_temp ∧ min_temp < max_temp ∧
      0 < max_speed ∧ max_speed ≤ 1 ∧ 0 ≤ min_speed ∧ min_speed ≤ 1 ∧
      min_temp ≤ target_temp ∧ target_temp ≤ max_temp then
    some { min_temp := min_temp, max_temp := max_temp,
           target_temp := target_temp, target_temp_conf := target_temp,
           min_speed := min_speed, max_speed := max_speed,
           ramp_down := ramp_down, enable := false,
           last_temp := 0, last_temp_time := 0,
           next_speed_time := 0, last_speed_value := 0,
           speed_delay := speed_delay }
  else none

/-- The value clamp at the head of `set_speed` (lines 65-70):
`if value <= 0.0: value = 0.0 elif value < self.min_speed: value =
self.min_speed` followed by `if self.target_temp <= 0.0: value = 0.0`. -/
def clamp_speed (s : DynamicTemperatureFan) (value : ℚ) : ℚ :=
  let value := if value ≤ 0 then 0
               else if value < s.min_speed then s.min_speed
               else value
  if s.target_temp ≤ 0 then 0 else value

/-- `set_speed` (lines 64-79).  Python's `not self.last_speed_value` is true
exactly when the float `last_speed_value` equals `0.0`.  The returned
`Option (ℚ × ℚ)` is the `(speed_time, value)` pair forwarded to
`self.fan.set_speed`, or `none` when the update is suppressed. -/
def set_speed (s : DynamicTemperatureFan) (read_time value : ℚ) :
    DynamicTemperatureFan × Option (ℚ × ℚ) :=
  let value := clamp_speed s value
  if (read_time < s.next_speed_time ∨ s.last_speed_value = 0) ∧
      |value - s.last_speed_value| < 5 / 100 then
    (s, none)
  else
    let speed_time := read_time + s.speed_delay
    ({ s with next_speed_time := speed_time + 3 / 4 * MAX_FAN_TIME,
              last_speed_value := value },
     some (speed_time, value))

/-- The raw ramp value of `calculate_fan_speed` (lines 102-118), before
clamping.  The source reads `self.temperature_last_temp`; that attribute is
the measured-temperature input of the shaping formula and is modelled as the
argument `temperature_last_temp`. -/
def shape_raw (s : DynamicTemperatureFan) (temperature_last_temp : ℚ) : ℚ :=
  if s.ramp_down then
    |(temperature_last_temp - s.min_temp) / (s.target_temp - s.min_temp) - 1|
  else
    |(temperature_last_temp - s.min_temp) / (s.target_temp - s.min_temp)|

/-- `calculate_fan_speed` (lines 100-123): the ramp value followed by the
`if target_speed <= min_speed ... elif target_speed >= max_speed ...`
clamp.  Only the computed speed is modelled; the source's final
`self.target_fan.set_speed(read_time, target_speed)` call names attributes
that do not exist on the object. -/
def calculate_fan_speed (s : DynamicTemperatureFan)
    (temperature_last_temp : ℚ) : ℚ :=
  let target_speed := shape_raw s temperature_last_temp
  if target_speed ≤ s.min_speed then s.min_speed
  else if target_speed ≥ s.max_speed then s.max_speed
  else target_speed

/-- `set_temp` (lines 163-169): raises when `degrees` is truthy (a float is
truthy iff nonzero) and `degrees > max_temp`; otherwise assigns
`target_temp`.  No lower bound is checked. -/
def set_temp (s : DynamicTemperatureFan) (degrees : ℚ) :
    DynamicTemperatureFan × Bool :=
  if degrees ≠ 0 ∧ degrees > s.max_temp then (s, false)
  else ({ s with target_temp := degrees }, true)

/-- `set_min_speed` (lines 171-176). -/
def set_min_speed (s : DynamicTemperatureFan) (speed : ℚ) :
    DynamicTemperatureFan × Bool :=
  if speed ≠ 0 ∧ (speed < 0 ∨ speed > 1) then (s, false)
  else ({ s with min_speed := speed }, true)

/-- `set_max_speed` (lines 178-183). -/
def set_max_speed (s : DynamicTemperatureFan) (speed : ℚ) :
    DynamicTemperatureFan × Bool :=
  if speed ≠ 0 ∧ (speed < 0 ∨ speed > 1) then (s, false)
  else ({ s with max_speed := speed }, true)

/-- `cmd_SET_DYNAMIC_FAN_TARGET` (lines 127-138).  `gcmd.get_float("TARGET",
self.target_temp_conf)` defaults an omitted argument (here `none`) to the
stated attribute.  The handler first calls `set_temp`, then resolves
`MIN_SPEED`/`MAX_SPEED`, raises when `min_speed > max_speed`, and only then
calls `set_min_speed` and `set_max_speed`.  A raise propagates with the
mutations already performed left in place. -/
def cmd_SET_DYNAMIC_FAN_TARGET (s : DynamicTemperatureFan)
    (tgt mn mx : Option ℚ) : DynamicTemperatureFan × Bool :=
  let temp := tgt.getD s.target_temp_conf
  let r1 := set_temp s temp
  if r1.2 = false then (r1.1, false)
  else
    let s1 := r1.1
    let min_speed := mn.getD s1.min_speed
    let max_speed := mx.getD s1.max_speed
    if min_speed > max_speed then (s1, false)
    else
      let r2 := set_min_speed s1 min_speed
      if r2.2 = false then (r2.1, false)
      else set_max_speed r2.1 max_speed

/-- `set_enable` (lines 185-194).  For the valid arguments `0` and `1` the
range check never raises (`enable` is falsy for `0`).  Then `if enable >= 0`
sets `self.enable = True`; only a negative argument reaches the `else`
branch, which sets `self.enable = False` and attempts to command the fan to
`0.0` (that call names `self.temperature_fan` and `read_time`, which do not
exist in scope; the attempted `0.0` command is modelled as the effect). -/
def set_enable (s : DynamicTemperatureFan) (enable : ℤ) :
    DynamicTemperatureFan × Option ℚ :=
  if enable ≥ 0 then ({ s with enable := true }, none)
  else ({ s with enable := false }, some 0)

/-- `cmd_SET_DYNAMIC_FAN_ENABLE` (lines 159-161): `gcmd.get_int("ENABLE",
None, minval=0, maxval=1)` raises on an argument outside `{0, 1}`, otherwise
the handler calls `set_enable`. -/
def cmd_SET_DYNAMIC_FAN_ENABLE (s : DynamicTemperatureFan) (enable : ℤ) :
    (DynamicTemperatureFan × Option ℚ) × Bool :=
  if 0 ≤ enable ∧ enable ≤ 1 then (set_enable s enable, true)
  else ((s, none), false)

/-- The `ControlBangBang` state (lines 202-206): the hysteresis deadband
`max_delta` and the two-state flag `heating` (`heating = true` is the
branch of `temperature_callback` that commands the calculated fan speed,
i.e. the Active state; `heating = false` commands `0.0`, i.e. Idle). -/
structure ControlBangBang where
  max_delta : ℚ
  heating : Bool
deriving DecidableEq

/-- `ControlBangBang.__init__` (lines 203-206): `max_delta` comes from
`config.getfloat("max_delta", 2.0, above=0.0)` and `self.heating = True`. -/
def ControlBangBang.init (max_delta : ℚ) : ControlBangBang :=
  { max_delta := max_delta, heating := true }

/-- The hysteresis transition of `ControlBangBang.temperature_callback`
(lines 211-214): `if self.heating and temp >= target_temp + self.max_delta:
self.heating = False elif not self.heating and temp <= target_temp -
self.max_delta: self.heating = True`. -/
def bangbang_transition (heating : Bool) (temp target_temp max_delta : ℚ) :
    Bool :=
  if heating = true ∧ target_temp + max_delta ≤ temp then false
  else if heating = false ∧ temp ≤ target_temp - max_delta then true
  else heating

/-! ### Example states used by concrete evaluations -/

/-- The scenario state of the spec: temperature window `[20, 60]`, target
`40`, speeds `[0.3, 1.0]`, ramp-up, `speed_delay = 1`, with a previously
forwarded speed of `0.5` and an expired hold window. -/
def exState : DynamicTemperatureFan :=
  { min_temp := 20, max_temp := 60, target_temp := 40, target_temp_conf := 40,
    min_speed := 3 / 10, max_speed := 1, ramp_down := false, enable := false,
    last_temp := 0, last_temp_time := 0, next_speed_time := 0,
    last_speed_value := 1 / 2, speed_delay := 1 }

/-- The state `initState 20 60 1 (3/10) false 40 1` produces. -/
def initExample : DynamicTemperatureFan :=
  { min_temp := 20, max_temp := 60, target_temp := 40, target_temp_conf := 40,
    min_speed := 3 / 10, max_speed := 1, ramp_down := false, enable := false,
    last_temp := 0, last_temp_time := 0, next_speed_time := 0,
    last_speed_value := 0, speed_delay := 1 }

/-- `exState` with a tiny `min_speed` and the zero sentinel as
`last_speed_value`. -/
def zeroSentinelState : DynamicTemperatureFan :=
  { exState with min_speed := 1 / 50, last_speed_value := 0 }

/-- `exState` with the temperature window `[50, 60]`: after `set_temp 50`
the shaping denominator `target_temp - min_temp` becomes `0`. -/
def degenerateState : DynamicTemperatureFan :=
  { exState with min_temp := 50, max_temp := 60, target_temp := 55 }

/-! ### Helper lemmas -/

lemma set_temp_fst_min_speed (s : DynamicTemperatureFan) (d : ℚ) :
    (set_temp s d).1.min_speed = s.min_speed := by
  unfold set_temp; split_ifs <;> rfl

lemma set_temp_fst_max_speed (s : DynamicTemperatureFan) (d : ℚ) :
    (set_temp s d).1.max_speed = s.max_speed := by
  unfold set_temp; split_ifs <;> rfl

/-! ### Claims -/

/-- C1: evaluation of `SET_DYNAMIC_FAN_ENABLE ENABLE=0` at a concrete
state.  The handler returns normally, but because `set_enable` tests
`enable >= 0`, the argument `0` sets `self.enable = True` and no `0.0`
command is issued to the actuator: the disable branch is unreachable for
the arguments `get_int(minval=0, maxval=1)` admits. -/
theorem C1_enable_zero_keeps_fan_enabled :
    (cmd_SET_DYNAMIC_FAN_ENABLE exState 0).2 = true ∧
    (cmd_SET_DYNAMIC_FAN_ENABLE exState 0).1.1.enable = true ∧
    (cmd_SET_DYNAMIC_FAN_ENABLE exState 0).1.2 = none :=
  ⟨rfl, rfl, rfl⟩

/-- C2 counterexample: submitting speed `2` to `set_speed` at `exState`
forwards `(11, 2)` to the actuator even though `2` is neither inside
`[min_speed, max_speed] = [0.3, 1]` nor `0`: `set_speed` has no
`max_speed` clamp. -/
theorem C2_forward_above_max_counterexample :
    (set_speed exState 10 2).2 = some (11, 2) ∧
    ¬(exState.min_speed ≤ 2 ∧ (2 : ℚ) ≤ exState.max_speed) ∧
    (2 : ℚ) ≠ 0 := by
  refine ⟨?_, ?_, ?_⟩
  · norm_num [set_speed, clamp_speed, exState]
  · norm_num [exState]
  · norm_num

/-- C2 (amended): every speed `set_speed` forwards to the actuator is
exactly `0` or at least `min_speed`; there is no upper clamp. -/
theorem C2_forwarded_speed_zero_or_ge_min (s : DynamicTemperatureFan)
    (read_time value : ℚ) (p : ℚ × ℚ)
    (h : (set_speed s read_time value).2 = some p) :
    p.2 = 0 ∨ s.min_speed ≤ p.2 := by
  have hp : p.2 = clamp_speed s value := by
    by_cases hc : ((read_time < s.next_speed_time ∨ s.last_speed_value = 0) ∧
        |clamp_speed s value - s.last_speed_value| < 5 / 100)
    · exfalso
      simp only [set_speed, if_pos hc] at h
      exact Option.noConfusion h
    · simp only [set_speed, if_neg hc] at h
      injection h with h2
      rw [← h2]
  rw [hp]
  simp only [clamp_speed]
  split_ifs with h1 h2 h3
  · exact Or.inl rfl
  · exact Or.inl rfl
  · exact Or.inr le_rfl
  · exact Or.inr (le_of_not_lt h3)

/-- C2 witness: a concrete forwarded command obeys the amended bound. -/
theorem C2_forwarded_speed_zero_or_ge_min_witness :
    (9 / 10 : ℚ) = 0 ∨ exState.min_speed ≤ 9 / 10 :=
  C2_forwarded_speed_zero_or_ge_min exState 10 (9 / 10) (11, 9 / 10)
    (by norm_num [set_speed, clamp_speed, exState])

/-- C3 counterexample: `SET_DYNAMIC_FAN_TARGET TARGET=30 MIN_SPEED=0.8
MAX_SPEED=0.5` at `exState` raises (`min_speed > max_speed`), yet
`target_temp` has already been changed from `40` to `30`: the command is
not atomic in `target_temp`. -/
theorem C3_target_temp_not_atomic_counterexample :
    (cmd_SET_DYNAMIC_FAN_TARGET exState (some 30) (some (8 / 10))
        (some (1 / 2))).2 = false ∧
    (cmd_SET_DYNAMIC_FAN_TARGET exState (some 30) (some (8 / 10))
        (some (1 / 2))).1.target_temp = 30 ∧
    exState.target_temp = 40 := by
  refine ⟨?_, ?_, ?_⟩
  · norm_num [cmd_SET_DYNAMIC_FAN_TARGET, set_temp, exState]
  · norm_num [cmd_SET_DYNAMIC_FAN_TARGET, set_temp, exState]
  · norm_num [exState]

/-- C3 (amended): when the requested `MIN_SPEED` exceeds the requested
`MAX_SPEED`, `cmd_SET_DYNAMIC_FAN_TARGET` raises and leaves `min_speed`
and `max_speed` at their pre-call values; `target_temp`, however, is
updated by the preceding `set_temp` call whenever its own check passes. -/
theorem C3_speed_fields_atomic (s : DynamicTemperatureFan)
    (tgt mn mx : Option ℚ)
    (h : mn.getD s.min_speed > mx.getD s.max_speed) :
    (cmd_SET_DYNAMIC_FAN_TARGET s tgt mn mx).2 = false ∧
    (cmd_SET_DYNAMIC_FAN_TARGET s tgt mn mx).1.min_speed = s.min_speed ∧
    (cmd_SET_DYNAMIC_FAN_TARGET s tgt mn mx).1.max_speed = s.max_speed := by
  have hmin := set_temp_fst_min_speed s (tgt.getD s.target_temp_conf)
  have hmax := set_temp_fst_max_speed s (tgt.getD s.target_temp_conf)
  by_cases h1 : (set_temp s (tgt.getD s.target_temp_conf)).2 = false
  · simp only [cmd_SET_DYNAMIC_FAN_TARGET, if_pos h1]
    exact ⟨by simp, hmin, hmax⟩
  · simp only [cmd_SET_DYNAMIC_FAN_TARGET, if_neg h1]
    rw [hmin, hmax, if_pos h]
    exact ⟨rfl, hmin, hmax⟩

/-- C3 witness: a concrete rejected call leaves the speed fields intact. -/
theorem C3_speed_fields_atomic_witness :
    (cmd_SET_DYNAMIC_FAN_TARGET exState none (some (8 / 10))
        (some (1 / 2))).2 = false ∧
    (cmd_SET_DYNAMIC_FAN_TARGET exState none (some (8 / 10))
        (some (1 / 2))).1.min_speed = exState.min_speed ∧
    (cmd_SET_DYNAMIC_FAN_TARGET exState none (some (8 / 10))
        (some (1 / 2))).1.max_speed = exState.max_speed :=
  C3_speed_fields_atomic exState none (some (8 / 10)) (some (1 / 2))
    (by norm_num [exState])

/-- C4: the hysteresis transition of `ControlBangBang.temperature_callback`
deactivates an active state when `temp ≥ target + max_delta`, activates an
inactive state when `temp ≤ target − max_delta`, and leaves the state
unchanged for temperatures strictly inside the deadband. -/
theorem C4_hysteresis_transitions (heating : Bool)
    (temp target_temp max_delta : ℚ) :
    (heating = true → target_temp + max_delta ≤ temp →
      bangbang_transition heating temp target_temp max_delta = false) ∧
    (heating = false → temp ≤ target_temp - max_delta →
      bangbang_transition heating temp target_temp max_delta = true) ∧
    (target_temp - max_delta < temp → temp < target_temp + max_delta →
      bangbang_transition heating temp target_temp max_delta = heating) := by
  refine ⟨?_, ?_, ?_⟩ <;> intro h1 h2 <;>
    simp only [bangbang_transition] <;> split_ifs with ha hb
  · rfl
  · exact absurd ⟨h1, h2⟩ ha
  · exact absurd ⟨h1, h2⟩ ha
  · simp_all
  · rfl
  · exact absurd ⟨h1, h2⟩ hb
  · exact absurd ha.2 (by linarith)
  · exact absurd hb.2 (by linarith)
  · rfl

/-- C4 witness: the spec scenario at `target = 40`, `deadband = 2`:
`43°` deactivates, `37°` activates, `40°` (inside the deadband) leaves the
active state unchanged. -/
theorem C4_hysteresis_transitions_witness :
    bangbang_transition true 43 40 2 = false ∧
    bangbang_transition false 37 40 2 = true ∧
    bangbang_transition true 40 40 2 = true :=
  ⟨(C4_hysteresis_transitions true 43 40 2).1 rfl (by norm_num),
   (C4_hysteresis_transitions false 37 40 2).2.1 rfl (by norm_num),
   (C4_hysteresis_transitions true 40 40 2).2.2 (by norm_num) (by norm_num)⟩

/-- C5: on the non-suppressed path `set_speed` clamps the value (`≤ 0`
becomes `0`; a positive value below `min_speed` becomes `min_speed`;
`target_temp ≤ 0` forces `0`), schedules the command for
`read_time + speed_delay`, sets `next_speed_time` to the scheduled time
plus `0.75 * MAX_FAN_TIME` with `MAX_FAN_TIME = 5`, records the clamped
value in `last_speed_value`, and forwards `(scheduled_time, value)`. -/
theorem C5_not_suppressed_path (s : DynamicTemperatureFan)
    (read_time value : ℚ)
    (h : ¬((read_time < s.next_speed_time ∨ s.last_speed_value = 0) ∧
        |clamp_speed s value - s.last_speed_value| < 5 / 100)) :
    MAX_FAN_TIME = 5 ∧
    (s.target_temp ≤ 0 → clamp_speed s value = 0) ∧
    (0 < s.target_temp → value ≤ 0 → clamp_speed s value = 0) ∧
    (0 < s.target_temp → 0 < value → value < s.min_speed →
      clamp_speed s value = s.min_speed) ∧
    (0 < s.target_temp → 0 < value → s.min_speed ≤ value →
      clamp_speed s value = value) ∧
    set_speed s read_time value =
      ({ s with
          next_speed_time := read_time + s.speed_delay + 3 / 4 * MAX_FAN_TIME,
          last_speed_value := clamp_speed s value },
       some (read_time + s.speed_delay, clamp_speed s value)) := by
  refine ⟨rfl, ?_, ?_, ?_, ?_, ?_⟩
  · intro ht
    simp only [clamp_speed]
    rw [if_pos ht]
  · intro ht hv
    simp only [clamp_speed]
    rw [if_neg (not_le.mpr ht), if_pos hv]
  · intro ht hv hm
    simp only [clamp_speed]
    rw [if_neg (not_le.mpr ht), if_neg (not_le.mpr hv), if_pos hm]
  · intro ht hv hm
    simp only [clamp_speed]
    rw [if_neg (not_le.mpr ht), if_neg (not_le.mpr hv),
        if_neg (not_lt.mpr hm)]
  · simp only [set_speed]
    rw [if_neg h]

/-- C5 witness: submitting `0.9` at time `10` to `exState` is forwarded as
`(11, 0.9)` with the documented state update. -/
theorem C5_not_suppressed_path_witness :
    set_speed exState 10 (9 / 10) =
      ({ exState with
          next_speed_time := 10 + exState.speed_delay + 3 / 4 * MAX_FAN_TIME,
          last_speed_value := clamp_speed exState (9 / 10) },
       some (10 + exState.speed_delay, clamp_speed exState (9 / 10))) :=
  (C5_not_suppressed_path exState 10 (9 / 10)
    (by norm_num [clamp_speed, exState])).2.2.2.2.2

/-- C6 counterexample: the freshly constructed `ControlBangBang` state is
not Idle: `__init__` sets `self.heating = True`. -/
theorem C6_initial_state_not_idle_counterexample :
    ¬((ControlBangBang.init 2).heating = false) := by
  decide

/-- C6 (amended): for every configured deadband the initial hysteresis
state is Active (`heating = True`), the branch that commands the
calculated fan speed rather than `0.0`. -/
theorem C6_initial_state_active (max_delta : ℚ) :
    (ControlBangBang.init max_delta).heating = true := rfl

/-- C7: evaluation at the failing input.  With `min_temp = 50`,
`max_temp = 60`, `set_temp 50` is accepted (`set_temp` only rejects
nonzero values above `max_temp`), leaving `target_temp = min_temp`, so the
shaping denominator `target_temp - min_temp` is `0`; configuration
loading likewise accepts `target_temp = min_temp`, because its lower
bound is inclusive. -/
theorem C7_set_temp_accepts_min_temp :
    (set_temp degenerateState 50).2 = true ∧
    (set_temp degenerateState 50).1.target_temp =
      (set_temp degenerateState 50).1.min_temp ∧
    (initState 50 60 1 (3 / 10) false 50 1).isSome = true := by
  refine ⟨?_, ?_, ?_⟩
  · norm_num [set_temp, degenerateState, exState]
  · norm_num [set_temp, degenerateState, exState]
  · norm_num [initState, KELVIN_TO_CELSIUS]

/-- C8: `calculate_fan_speed` computes the absolute ramp ratio (plain in
ramp-up mode, shifted by `−1` in ramp-down mode) and clamps it to
`min_speed` from below and `max_speed` from above. -/
theorem C8_shape_formula_and_clamp (s : DynamicTemperatureFan)
    (temperature_last_temp : ℚ)
    (hne : s.target_temp ≠ s.min_temp) (hms : s.min_speed ≤ s.max_speed) :
    (s.ramp_down = false → shape_raw s temperature_last_temp =
      |(temperature_last_temp - s.min_temp) /
        (s.target_temp - s.min_temp)|) ∧
    (s.ramp_down = true → shape_raw s temperature_last_temp =
      |(temperature_last_temp - s.min_temp) /
        (s.target_temp - s.min_temp) - 1|) ∧
    (shape_raw s temperature_last_temp ≤ s.min_speed →
      calculate_fan_speed s temperature_last_temp = s.min_speed) ∧
    (s.max_speed ≤ shape_raw s temperature_last_temp →
      calculate_fan_speed s temperature_last_temp = s.max_speed) ∧
    (s.min_speed < shape_raw s temperature_last_temp →
      shape_raw s temperature_last_temp < s.max_speed →
      calculate_fan_speed s temperature_last_temp =
        shape_raw s temperature_last_temp) := by
  refine ⟨?_, ?_, ?_, ?_, ?_⟩
  · intro hr
    simp [shape_raw, hr]
  · intro hr
    simp [shape_raw, hr]
  · intro hlo
    simp only [calculate_fan_speed]
    rw [if_pos hlo]
  · intro hhi
    simp only [calculate_fan_speed]
    split_ifs with h1
    · linarith
    · rfl
  · intro hlo hhi
    simp only [calculate_fan_speed]
    rw [if_neg (not_le.mpr hlo), if_neg (not_le.mpr hhi)]

/-- C8 witness: the spec scenario (`min_temp = 20`, `target = 40`,
measured `38`, ramp-up) shapes to `0.9`, which no clamp touches. -/
theorem C8_shape_formula_and_clamp_witness :
    calculate_fan_speed exState 38 = shape_raw exState 38 ∧
    shape_raw exState 38 = 9 / 10 :=
  ⟨(C8_shape_formula_and_clamp exState 38 (by norm_num [exState])
      (by norm_num [exState])).2.2.2.2
    (by norm_num [shape_raw, exState, abs])
    (by norm_num [shape_raw, exState, abs]),
   by norm_num [shape_raw, exState, abs]⟩

/-- C9 counterexample: with bounds `[20, 60]`, `set_temp 10` is accepted
and leaves a strictly positive `target_temp` below `min_temp`: the setter
never checks the lower bound. -/
theorem C9_lower_bound_counterexample :
    (set_temp exState 10).2 = true ∧
    0 < (set_temp exState 10).1.target_temp ∧
    (set_temp exState 10).1.target_temp < (set_temp exState 10).1.min_temp := by
  refine ⟨?_, ?_, ?_⟩
  · norm_num [set_temp, exState]
  · norm_num [set_temp, exState]
  · norm_num [set_temp, exState]

/-- C9 (amended): construction establishes `target_temp ∈ [min_temp,
max_temp]`, and `set_temp` preserves only the upper half of the invariant:
an accepted positive value satisfies `target_temp ≤ max_temp`, and a
rejected call leaves the state unchanged; positive values below
`min_temp` are accepted. -/
theorem C9_upper_bound_only (mt Mt Ms ms : ℚ) (rd : Bool) (tt sd : ℚ)
    (s s0 : DynamicTemperatureFan) (d : ℚ) :
    (initState mt Mt Ms ms rd tt sd = some s0 →
      s0.min_temp ≤ s0.target_temp ∧ s0.target_temp ≤ s0.max_temp) ∧
    ((set_temp s d).2 = true → 0 < (set_temp s d).1.target_temp →
      (set_temp s d).1.target_temp ≤ (set_temp s d).1.max_temp) ∧
    ((set_temp s d).2 = false → (set_temp s d).1 = s) := by
  refine ⟨?_, ?_, ?_⟩
  · intro h
    simp only [initState] at h
    split_ifs at h with hc
    injection h with h2
    rw [← h2]
    exact ⟨hc.2.2.2.2.2.2.1, hc.2.2.2.2.2.2.2⟩
  · intro hok hpos
    by_cases hcond : (d ≠ 0 ∧ d > s.max_temp)
    · exfalso
      have hf : (set_temp s d).2 = false := by
        simp only [set_temp, if_pos hcond]
      rw [hok] at hf
      exact Bool.noConfusion hf
    · have h1 : (set_temp s d).1 = { s with target_temp := d } := by
        simp only [set_temp, if_neg hcond]
      rw [h1] at hpos ⊢
      rcases not_and_or.mp hcond with hz | hle
      · rw [not_not] at hz
        rw [hz] at hpos
        exact absurd hpos (lt_irrefl 0)
      · exact le_of_not_lt hle
  · intro hfail
    by_cases hcond : (d ≠ 0 ∧ d > s.max_temp)
    · simp only [set_temp, if_pos hcond]
    · exfalso
      have ht : (set_temp s d).2 = true := by
        simp only [set_temp, if_neg hcond]
      rw [hfail] at ht
      exact Bool.noConfusion ht

/-- C9 witness: construction at the spec scenario yields `40 ∈ [20, 60]`;
`set_temp 30` keeps the target under `max_temp`; `set_temp 100` is
rejected and leaves the state unchanged. -/
theorem C9_upper_bound_only_witness :
    (initExample.min_temp ≤ initExample.target_temp ∧
      initExample.target_temp ≤ initExample.max_temp) ∧
    (set_temp exState 30).1.target_temp ≤ (set_temp exState 30).1.max_temp ∧
    (set_temp exState 100).1 = exState :=
  ⟨(C9_upper_bound_only 20 60 1 (3 / 10) false 40 1 exState initExample
      30).1 (by norm_num [initState, initExample, KELVIN_TO_CELSIUS]),
   (C9_upper_bound_only 20 60 1 (3 / 10) false 40 1 exState initExample
      30).2.1 (by norm_num [set_temp, exState]) (by norm_num [set_temp, exState]),
   (C9_upper_bound_only 20 60 1 (3 / 10) false 40 1 exState initExample
      100).2.2 (by norm_num [set_temp, exState])⟩

/-- C10: whenever `last_speed_value` is the zero sentinel `0.0` — not only
before the first command — and the clamped value is within `0.05` of `0`,
`set_speed` suppresses the update even at or past `next_speed_time`:
Python's `not self.last_speed_value` is true for every zero value. -/
theorem C10_zero_sentinel_suppression (s : DynamicTemperatureFan)
    (read_time value : ℚ) (h0 : s.last_speed_value = 0)
    (hnext : s.next_speed_time ≤ read_time)
    (hsmall : |clamp_speed s value| < 5 / 100) :
    set_speed s read_time value = (s, none) := by
  simp only [set_speed]
  rw [if_pos ⟨Or.inr h0, by rw [h0, sub_zero]; exact hsmall⟩]

/-- C10 witness: with `last_speed_value = 0`, `min_speed = 0.02` and an
expired hold window (`read_time = 10 ≥ next_speed_time = 0`), the nonzero
request `0.01` (clamped to `0.02 < 0.05`) is suppressed. -/
theorem C10_zero_sentinel_suppression_witness :
    set_speed zeroSentinelState 10 (1 / 100) = (zeroSentinelState, none) :=
  C10_zero_sentinel_suppression zeroSentinelState 10 (1 / 100) rfl
    (by norm_num [zeroSentinelState, exState])
    (by norm_num [clamp_speed, zeroSentinelState, exState, abs])
